import Mathlib

/-!
Verification of the calibration subsystem.

Shallow embedding of the calibration core of the repository
(`src/python/spatiallm_bridge.py`, `src/python/wrapper.py`, `src/wrapper.py`)
and proofs about it.  Real-valued quantities of the Python source are
modelled as rationals (`ℚ`); every exact value appearing in the claims is
rational, so no precision is lost.  Python exceptions are modelled with
`Except String`; a raised `ZeroDivisionError`/`ValueError` becomes an
`Except.error`.
-/

namespace Calibration

instance {ε α : Type} [DecidableEq ε] [DecidableEq α] :
    DecidableEq (Except ε α) := fun x y =>
  match x, y with
  | .ok a, .ok b =>
      if h : a = b then .isTrue (by rw [h]) else .isFalse (fun hh => h (Except.ok.inj hh))
  | .error e, .error f =>
      if h : e = f then .isTrue (by rw [h]) else .isFalse (fun hh => h (Except.error.inj hh))
  | .ok _, .error _ => .isFalse (fun hh => Except.noConfusion hh)
  | .error _, .ok _ => .isFalse (fun hh => Except.noConfusion hh)

/-- A detected object as built by `extract_calibration_from_layout`
(`spatiallm_bridge.py`): a dict with keys `type, width, height, length,
confidence`.  Position and orientation are not stored by the source. -/
structure DetObj where
  type : String
  width : ℚ
  height : ℚ
  length : ℚ
  confidence : ℚ
  deriving DecidableEq, Repr

/-- A wall as built by `extract_calibration_from_layout`: a dict holding
only the wall's `length`. -/
structure Wall where
  length : ℚ
  deriving DecidableEq, Repr

/-- The `standard_dimensions` table of
`calculate_calibration_from_objects` (`spatiallm_bridge.py` lines 256-267):
`(width, height)` in cm per recognized object type. -/
def standard_dimensions : String → Option (ℚ × ℚ)
  | "door" => some (90, 210)
  | "chair" => some (45, 85)
  | "table" => some (120, 75)
  | "sofa" => some (180, 85)
  | "bed" => some (160, 50)
  | "desk" => some (120, 75)
  | "refrigerator" => some (75, 180)
  | "toilet" => some (40, 40)
  | "sink" => some (60, 30)
  | "bathtub" => some (170, 55)
  | _ => none

/-- `standard_wall_height = 250` cm (`spatiallm_bridge.py` line 270). -/
def standard_wall_height : ℚ := 250

/-- Python `str.lower()` restricted to the characters occurring here:
maps every character through `Char.toLower`. -/
def pyLower (s : String) : String :=
  String.mk (s.toList.map Char.toLower)

/-- The object loop of `calculate_calibration_from_objects`
(`spatiallm_bridge.py` lines 276-293): for every object whose lowercased
type is in the table, compute `width_ratio`/`height_ratio` (0 when the
detected dimension is not positive) and append each positive ratio paired
with the object's confidence. -/
def objectRatios (objects : List DetObj) : List (ℚ × ℚ) :=
  objects.flatMap fun obj =>
    match standard_dimensions (pyLower obj.type) with
    | none => []
    | some (std_width, std_height) =>
      let wr := if obj.width > 0 then std_width / obj.width else 0
      let hr := if obj.height > 0 then std_height / obj.height else 0
      (if wr > 0 then [(wr, obj.confidence)] else []) ++
      (if hr > 0 then [(hr, obj.confidence)] else [])

/-- The ratio list after the wall fallback of
`calculate_calibration_from_objects` (`spatiallm_bridge.py` lines 296-300):
if the object loop produced no ratios and `walls` is non-empty, append the
single ratio `standard_wall_height / (avg_wall_length * 100)` with weight
`0.7`.  Python raises `ZeroDivisionError` when `avg_wall_length * 100`
is zero, modelled as an `Except.error`. -/
def ratiosOf (objects : List DetObj) (walls : List Wall) :
    Except String (List (ℚ × ℚ)) :=
  let ratios := objectRatios objects
  if ratios = [] ∧ walls ≠ [] then
    let avg_wall_length := (walls.map Wall.length).sum / (walls.length : ℚ)
    if avg_wall_length * 100 = 0 then
      Except.error "ZeroDivisionError"
    else
      Except.ok (ratios ++ [(standard_wall_height / (avg_wall_length * 100), 7/10)])
  else
    Except.ok ratios

/-- `calculate_calibration_from_objects` (`spatiallm_bridge.py` lines
248-309): confidence-weighted average of the collected ratios;
`0.1` when the ratio list is empty or the total weight is not positive. -/
def calculate_calibration_from_objects (objects : List DetObj)
    (walls : List Wall) : Except String ℚ := do
  let ratios ← ratiosOf objects walls
  if ratios ≠ [] then
    let weighted_sum := (ratios.map fun rc => rc.1 * rc.2).sum
    let total_weight := (ratios.map fun rc => rc.2).sum
    pure (if total_weight > 0 then weighted_sum / total_weight else 1/10)
  else
    pure (1/10)

/-! Layout parsing (`extract_calibration_from_layout`, lines 201-246) -/

/-- Digit run value: `foldl (10*a + digit)` over a list of decimal digits. -/
def digitsVal (cs : List Char) : ℕ :=
  cs.foldl (fun a c => 10 * a + (c.toNat - 48)) 0

/-- Python `float(s)` on the decimal strings this program feeds it:
optional sign, then digits with an optional single decimal point (at
least one digit overall).  Any other string makes `float` raise
`ValueError`, modelled as `none`. -/
def pyFloat? (s : String) : Option ℚ :=
  let cs := s.toList
  let signed : ℚ × List Char :=
    match cs with
    | '-' :: r => (-1, r)
    | '+' :: r => (1, r)
    | r => (1, r)
  let intPart := signed.2.takeWhile (fun c => c ≠ '.')
  let rest := signed.2.dropWhile (fun c => c ≠ '.')
  match rest with
  | [] =>
    if intPart ≠ [] ∧ intPart.all Char.isDigit then
      some (signed.1 * digitsVal intPart)
    else none
  | _ :: frac =>
    if (intPart ≠ [] ∨ frac ≠ []) ∧ intPart.all Char.isDigit ∧ frac.all Char.isDigit then
      some (signed.1 * ((digitsVal intPart : ℚ) + digitsVal frac / 10 ^ frac.length))
    else none

/-- Python `float(s)` as a fallible computation (`ValueError` on bad input). -/
def pyFloatE (s : String) : Except String ℚ :=
  match pyFloat? s with
  | some q => Except.ok q
  | none => Except.error ("ValueError: could not convert string to float: " ++ s)

/-- Python `str.split()` (no separator): split on runs of whitespace,
discarding empty tokens. -/
def pySplit (s : String) : List String :=
  ((s.toList.splitOnP Char.isWhitespace).filter (· ≠ [])).map fun cs => String.mk cs

/-- Python `str.strip()`: remove leading and trailing whitespace. -/
def pyStrip (s : String) : String :=
  String.mk (((s.toList.dropWhile Char.isWhitespace).reverse.dropWhile
    Char.isWhitespace).reverse)

/-- Python `str.split('\n')`: split on each newline, keeping empty pieces
(the empty string yields `[""]`). -/
def splitNl (s : String) : List String :=
  (s.toList.splitOnP (fun c => c = '\n')).map fun cs => String.mk cs

/-- Python `line.startswith(pre)`. -/
def pyStartsWith (line pre : String) : Bool :=
  pre.toList.isPrefixOf line.toList

/-- One iteration of the line loop of `extract_calibration_from_layout`
(`spatiallm_bridge.py` lines 209-236).  `np.sqrt` is passed in as an
opaque function `sqrt` (rationals have no square root).  A line starting
with `WALL` and splitting into at least 8 tokens yields a wall of length
`sqrt ((x2-x1)^2+(y2-y1)^2+(z2-z1)^2)` from tokens 1-6; a line starting
with `OBJECT` and splitting into at least 11 tokens yields an object from
tokens 1-7 and 10 (the source reads `parts[10]` for the confidence and
multiplies length/width/height by 100); every other line is skipped.
`float()` failures propagate as errors, exactly as the uncaught
`ValueError` does in the source. -/
def parseLine (sqrt : ℚ → ℚ) (line : String) :
    Except String (Option (Wall ⊕ DetObj)) :=
  if pyStartsWith line "WALL" then
    let parts := pySplit line
    if parts.length ≥ 8 then do
      let x1 ← pyFloatE (parts.getD 1 "")
      let y1 ← pyFloatE (parts.getD 2 "")
      let z1 ← pyFloatE (parts.getD 3 "")
      let x2 ← pyFloatE (parts.getD 4 "")
      let y2 ← pyFloatE (parts.getD 5 "")
      let z2 ← pyFloatE (parts.getD 6 "")
      pure (some (Sum.inl ⟨sqrt ((x2 - x1) ^ 2 + (y2 - y1) ^ 2 + (z2 - z1) ^ 2)⟩))
    else
      pure none
  else if pyStartsWith line "OBJECT" then
    let parts := pySplit line
    if parts.length ≥ 11 then do
      let obj_type := parts.getD 1 ""
      let _x ← pyFloatE (parts.getD 2 "")
      let _y ← pyFloatE (parts.getD 3 "")
      let _z ← pyFloatE (parts.getD 4 "")
      let length ← pyFloatE (parts.getD 5 "")
      let width ← pyFloatE (parts.getD 6 "")
      let height ← pyFloatE (parts.getD 7 "")
      let confidence ←
        if parts.length > 10 then pyFloatE (parts.getD 10 "") else pure (9/10)
      pure (some (Sum.inr ⟨obj_type, width * 100, height * 100, length * 100, confidence⟩))
    else
      pure none
  else
    pure none

/-- The line loop of `extract_calibration_from_layout`: process every
line in order, appending parsed walls and objects. -/
def parseLinesGo (sqrt : ℚ → ℚ) : List String → List Wall → List DetObj →
    Except String (List Wall × List DetObj)
  | [], walls, objects => Except.ok (walls, objects)
  | l :: rest, walls, objects =>
    match parseLine sqrt l with
    | Except.error e => Except.error e
    | Except.ok none => parseLinesGo sqrt rest walls objects
    | Except.ok (some (Sum.inl w)) => parseLinesGo sqrt rest (walls ++ [w]) objects
    | Except.ok (some (Sum.inr o)) => parseLinesGo sqrt rest walls (objects ++ [o])

/-- The parsing part of `extract_calibration_from_layout`
(`spatiallm_bridge.py` lines 205-236): strip the text, split it on
newlines and run the line loop. -/
def extract_layout (sqrt : ℚ → ℚ) (layout_text : String) :
    Except String (List Wall × List DetObj) :=
  parseLinesGo sqrt (splitNl (pyStrip layout_text)) [] []

/-- The result record of `extract_calibration_from_layout`
(`spatiallm_bridge.py` lines 241-246). -/
structure LayoutCalib where
  calibration_factor : ℚ
  confidence : ℚ
  objects : List DetObj
  walls : List Wall
  deriving DecidableEq, Repr

/-- `extract_calibration_from_layout` (`spatiallm_bridge.py` lines
201-246): parse the layout text, derive the calibration factor from the
parsed objects and walls, and return it with fixed confidence `0.9`. -/
def extract_calibration_from_layout (sqrt : ℚ → ℚ) (layout_text : String) :
    Except String LayoutCalib := do
  let (walls, objects) ← extract_layout sqrt layout_text
  let cf ← calculate_calibration_from_objects objects walls
  pure ⟨cf, 9/10, objects, walls⟩

/-- A line the loop of `extract_calibration_from_layout` skips: it does
not start with `WALL` or `OBJECT`, or it starts with one of them but has
fewer whitespace-separated tokens than the branch's guard requires
(8 for `WALL`, 11 for `OBJECT`). -/
def skippableLine (line : String) : Bool :=
  if pyStartsWith line "WALL" then decide ((pySplit line).length < 8)
  else if pyStartsWith line "OBJECT" then decide ((pySplit line).length < 11)
  else true

/-! Point-cloud construction (`create_point_cloud_from_depth`, lines 120-199) -/

/-- One point of the cloud: back-projected position and RGB color, as
appended to `points`/`colors` in `create_point_cloud_from_depth`. -/
structure Point3D where
  x : ℚ
  y : ℚ
  z : ℚ
  r : ℕ
  g : ℕ
  b : ℕ
  deriving DecidableEq, Repr

/-- The pinhole back-projection of `create_point_cloud_from_depth`
(`spatiallm_bridge.py` lines 161-163):
`x=(u-cx)*depth/fx`, `y=(v-cy)*depth/fy`, `z=depth`. -/
def backproject (fx fy cx cy : ℚ) (u v : ℕ) (depth : ℚ) : ℚ × ℚ × ℚ :=
  (((u : ℚ) - cx) * depth / fx, ((v : ℚ) - cy) * depth / fy, depth)

/-- The pixel loop of `create_point_cloud_from_depth` (`spatiallm_bridge.py`
lines 152-173): scan pixels in row-major order (`v` outer, `u` inner); a
pixel whose depth sample `samples[v*width+u]` is strictly positive is
back-projected and colored from the image when `(u, v)` is inside the
image extent (`img u v` models the already-BGR-to-RGB-swapped pixel read),
gray `(128,128,128)` otherwise; other pixels produce nothing.
`cloudPixel` is the body of the loop for pixel `(u, v)`. -/
def cloudPixel (width : ℕ) (samples : List ℚ) (fx fy cx cy : ℚ)
    (imgW imgH : ℕ) (img : ℕ → ℕ → ℕ × ℕ × ℕ) (v u : ℕ) :
    Option Point3D :=
  let depth := samples.getD (v * width + u) 0
  if 0 < depth then
    let p := backproject fx fy cx cy u v depth
    let c := if u < imgW ∧ v < imgH then img u v else (128, 128, 128)
    some ⟨p.1, p.2.1, p.2.2, c.1, c.2.1, c.2.2⟩
  else
    none

def create_point_cloud_points (width height : ℕ) (samples : List ℚ)
    (fx fy cx cy : ℚ) (imgW imgH : ℕ) (img : ℕ → ℕ → ℕ × ℕ × ℕ) : List Point3D :=
  (List.range height).flatMap fun v =>
    (List.range width).filterMap (cloudPixel width samples fx fy cx cy imgW imgH img v)

/-- The default intrinsics of `create_point_cloud_from_depth`
(`spatiallm_bridge.py` lines 133-144): `fx=fy=0.8*width`, `cx=width/2`,
`cy=height/2`. -/
def default_intrinsics (width height : ℕ) : ℚ × ℚ × ℚ × ℚ :=
  ((width : ℚ) * (8/10), (width : ℚ) * (8/10), (width : ℚ) / 2, (height : ℚ) / 2)

/-! Orchestration (`src/python/wrapper.py` and `src/wrapper.py`)

External collaborators (image loading, pose detection, the SpatialLM
bridge call) are passed in as explicit outcomes, as the spec's
"opaque external detector" pattern prescribes. -/

/-- The calibration-result dict of `src/python/wrapper.py` `main`
(keys `method, factor, confidence, unit`; method-specific auxiliary keys
such as `reference` are not modelled). -/
structure CalibResult where
  method : String
  factor : ℚ
  confidence : ℚ
  unit : String
  deriving DecidableEq, Repr

/-- The dict returned by the bridge's `process_lidar_data`
(keys `calibration_factor` and `confidence`). -/
structure BridgeResult where
  calibration_factor : ℚ
  confidence : ℚ
  deriving DecidableEq, Repr

/-- Python truthiness of an optional float argument:
`None` and `0.0` are falsy. -/
def truthyQ : Option ℚ → Bool
  | none => false
  | some x => x ≠ 0

/-- Python truthiness of an optional string argument:
`None` and `""` are falsy. -/
def truthyS : Option String → Bool
  | none => false
  | some s => s ≠ ""

/-- The command-line arguments relevant to calibration, shared by the two
wrapper scripts (`src/wrapper.py` names the custom reference dimensions
`ref_width`/`ref_height`, `src/python/wrapper.py` names them
`reference_width`/`reference_height`; one field each here). -/
structure Args where
  calibration_method : Option String
  calibration_factor : Option ℚ
  person_height : Option ℚ
  depth_map : Option String
  point_cloud : Option String
  reference_object : Option String
  reference_width : Option ℚ
  reference_height : Option ℚ
  deriving Repr

/-- `determine_calibration_method` (`src/wrapper.py` lines 170-184):
first truthy signal wins in the order direct, height, spatial, reference;
reference is also the default. -/
def determine_calibration_method (a : Args) : String :=
  if truthyQ a.calibration_factor then "direct"
  else if truthyQ a.person_height then "height"
  else if truthyS a.depth_map || truthyS a.point_cloud then "spatial"
  else if truthyS a.reference_object ||
      (truthyQ a.reference_width && truthyQ a.reference_height) then "reference"
  else "reference"

/-- `calculate_spatial_calibration` (`src/python/wrapper.py` lines
188-241).  `collab` is the outcome of the guarded block (loading the
intrinsics/depth JSON and calling `process_lidar_data`); an
`Except.error` is any exception raised there.  The function itself never
raises: without the bridge it returns the factor `0.05` with confidence
`0.8`, and on any collaborator error it returns `0.05` with confidence
`0.7`. -/
def calculate_spatial_calibration (bridgeAvailable : Bool)
    (collab : Except String BridgeResult) : CalibResult :=
  if bridgeAvailable = false then
    ⟨"spatial", 1/20, 8/10, "cm/pixel"⟩
  else
    match collab with
    | Except.ok r => ⟨"spatial", r.calibration_factor, r.confidence, "cm/pixel"⟩
    | Except.error _ => ⟨"spatial", 1/20, 7/10, "cm/pixel"⟩

/-- `get_reference_object_dimensions` (`src/python/wrapper.py` lines
70-84): `(width, height)` in cm, `ValueError` outside the table. -/
def get_reference_object_dimensions : String → Except String (ℚ × ℚ)
  | "a4_paper" => Except.ok (21, 297/10)
  | "letter_paper" => Except.ok (2159/100, 2794/100)
  | "credit_card" => Except.ok (856/100, 54/10)
  | "dollar_bill" => Except.ok (156/10, 66/10)
  | "euro_bill" => Except.ok (12, 62/10)
  | "30cm_ruler" => Except.ok (30, 3)
  | s => Except.error ("Unknown reference object: " ++ s)

/-- `calculate_height_calibration` (`src/python/wrapper.py` lines
153-167) with the pose detectors abstracted: `detected` is the pixel
height found by MediaPipe or the contour fallback (`none` when neither
detects a person, which the source turns into a `ValueError`); dividing
by a detected height of `0.0` raises `ZeroDivisionError` in Python. -/
def calculate_height_calibration (person_height_cm : ℚ) (detected : Option ℚ) :
    Except String ℚ :=
  match detected with
  | none => Except.error "Could not detect person in the image"
  | some px =>
    if px = 0 then Except.error "ZeroDivisionError"
    else Except.ok (person_height_cm / px)

/-- `calculate_reference_calibration` (`src/python/wrapper.py` lines
169-186): mock detection of a 200x150-pixel reference object, factor =
mean of the width and height factors. -/
def calculate_reference_calibration (ref_width_cm ref_height_cm : ℚ) : ℚ :=
  (ref_width_cm / 200 + ref_height_cm / 150) / 2

/-- The calibration dispatch of `main` (`src/python/wrapper.py` lines
396-470): build the calibration result for the given method.
`imageLoads` is whether `cv2.imread` succeeds on the input,
`detectedHeightPx` the pose-collaborator outcome, `spatial` the result of
`calculate_spatial_calibration` (which never raises).  An unmatched or
incompletely parameterized method raises `ValueError`. -/
def main_calibration_result (a : Args) (method : String) (imageLoads : Bool)
    (detectedHeightPx : Option ℚ) (spatial : CalibResult) :
    Except String CalibResult :=
  if method = "direct" ∧ truthyQ a.calibration_factor then
    Except.ok ⟨"direct", a.calibration_factor.getD 0, 1, "cm/pixel"⟩
  else if method = "height" ∧ truthyQ a.person_height then
    if imageLoads = false then
      Except.error "Could not load image"
    else do
      let factor ← calculate_height_calibration (a.person_height.getD 0) detectedHeightPx
      pure ⟨"height", factor, 9/10, "cm/pixel"⟩
  else if method = "reference" then do
    let dims ←
      if truthyS a.reference_object then
        get_reference_object_dimensions (a.reference_object.getD "")
      else if truthyQ a.reference_width ∧ truthyQ a.reference_height then
        Except.ok (a.reference_width.getD 0, a.reference_height.getD 0)
      else
        Except.error
          "Reference object calibration requires either reference_object or reference_width and reference_height"
    if imageLoads = false then
      Except.error "Could not load image"
    else
      pure ⟨"reference", calculate_reference_calibration dims.1 dims.2, 85/100, "cm/pixel"⟩
  else if method = "spatial" then
    Except.ok spatial
  else
    Except.error ("Invalid or incomplete calibration method: " ++ method)

/-- The orchestrator assembled from the cited sources: the method is the
explicit `--calibration_method` when truthy, otherwise
`determine_calibration_method` (`src/wrapper.py` line 68), and the result
is built by the `main` dispatch of `src/python/wrapper.py`. -/
def orchestrate (a : Args) (imageLoads : Bool) (detectedHeightPx : Option ℚ)
    (spatial : CalibResult) : Except String CalibResult :=
  let method :=
    if truthyS a.calibration_method then a.calibration_method.getD ""
    else determine_calibration_method a
  main_calibration_result a method imageLoads detectedHeightPx spatial

/-! Helper lemmas -/

theorem length_filterMap_eq_countP {α β : Type _} (f : α → Option β) (l : List α) :
    (l.filterMap f).length = l.countP fun a => (f a).isSome := by
  induction l with
  | nil => rfl
  | cons a t ih =>
    cases h : f a <;> simp [List.filterMap_cons, h, List.countP_cons, ih]

theorem countP_range_getD (p : ℚ → Bool) (s : List ℚ) :
    (List.range s.length).countP (fun i => p (s.getD i 0)) = s.countP p := by
  induction s with
  | nil => rfl
  | cons a t ih =>
    rw [List.length_cons, List.range_succ_eq_map]
    simp only [List.countP_cons, List.countP_map, Function.comp_def,
      List.getD_cons_succ, List.getD_cons_zero, ih]

theorem grid_flatMap_length (w : ℕ) (p : ℕ → Bool) (g : ℕ → ℕ → Option Point3D)
    (hg : ∀ v u, (g v u).isSome = p (v * w + u)) (h : ℕ) :
    ((List.range h).flatMap fun v => (List.range w).filterMap (g v)).length =
      (List.range (h * w)).countP p := by
  induction h with
  | zero => simp
  | succ n ih =>
    rw [List.range_succ, Nat.succ_mul, List.range_add]
    simp only [List.flatMap_append, List.flatMap_cons, List.flatMap_nil,
      List.append_nil, List.length_append, List.countP_append, List.countP_map,
      Function.comp_def, ih, length_filterMap_eq_countP, hg]

theorem cloudPixel_isSome (width : ℕ) (samples : List ℚ) (fx fy cx cy : ℚ)
    (imgW imgH : ℕ) (img : ℕ → ℕ → ℕ × ℕ × ℕ) (v u : ℕ) :
    (cloudPixel width samples fx fy cx cy imgW imgH img v u).isSome =
      decide (0 < samples.getD (v * width + u) 0) := by
  unfold cloudPixel
  set x := samples.getD (v * width + u) 0 with hx
  by_cases h : 0 < x <;> simp [h]

/-! C8 -/

/-- C8: for every depth map whose sample list has length `width*height`,
the point cloud has exactly one point per strictly-positive sample
(pixels with sample `<= 0` are dropped), so its length equals the number
of strictly-positive samples and is at most `width*height`. -/
theorem point_cloud_length (width height : ℕ) (samples : List ℚ)
    (fx fy cx cy : ℚ) (imgW imgH : ℕ) (img : ℕ → ℕ → ℕ × ℕ × ℕ)
    (hlen : samples.length = width * height) :
    (create_point_cloud_points width height samples fx fy cx cy imgW imgH img).length =
      (samples.filter fun d => 0 < d).length ∧
    (create_point_cloud_points width height samples fx fy cx cy imgW imgH img).length ≤
      width * height := by
  have key : (create_point_cloud_points width height samples fx fy cx cy imgW imgH img).length =
      samples.countP fun d => decide (0 < d) := by
    unfold create_point_cloud_points
    rw [grid_flatMap_length width (fun i => decide (0 < samples.getD i 0))
      (cloudPixel width samples fx fy cx cy imgW imgH img)
      (cloudPixel_isSome width samples fx fy cx cy imgW imgH img) height]
    have hhw : height * width = samples.length := by rw [hlen, Nat.mul_comm]
    rw [hhw]
    exact countP_range_getD (fun d => decide (0 < d)) samples
  constructor
  · rw [key, List.countP_eq_length_filter]
  · rw [key]
    calc samples.countP (fun d => decide (0 < d)) ≤ samples.length := List.countP_le_length _
    _ = width * height := hlen

/-- C8 witness: a 2x2 depth map with two strictly-positive samples. -/
theorem point_cloud_length_witness :
    (([1, 0, 2, -1] : List ℚ).length = 2 * 2) ∧
    ((create_point_cloud_points 2 2 [1, 0, 2, -1] 1 1 0 0 0 0 fun _ _ => (0, 0, 0)).length =
        (([1, 0, 2, -1] : List ℚ).filter fun d => 0 < d).length ∧
      (create_point_cloud_points 2 2 [1, 0, 2, -1] 1 1 0 0 0 0 fun _ _ => (0, 0, 0)).length ≤
        2 * 2) :=
  ⟨rfl, point_cloud_length 2 2 [1, 0, 2, -1] 1 1 0 0 0 0 (fun _ _ => (0, 0, 0)) rfl⟩

/-! C9 -/

/-- C9: back-projection round-trip.  For every pixel `(u,v)` with depth
`d > 0` and intrinsics `fx > 0`, `fy > 0`, the point `(x,y,z)` produced by
the builder satisfies `x*fx/z + cx = u` and `y*fy/z + cy = v`. -/
theorem backproject_roundtrip (u v : ℕ) (d fx fy cx cy : ℚ)
    (hd : 0 < d) (hfx : 0 < fx) (hfy : 0 < fy) :
    (backproject fx fy cx cy u v d).1 * fx / (backproject fx fy cx cy u v d).2.2 + cx = (u : ℚ) ∧
    (backproject fx fy cx cy u v d).2.1 * fy / (backproject fx fy cx cy u v d).2.2 + cy = (v : ℚ) := by
  unfold backproject
  constructor <;> field_simp

/-- C9 witness: pixel `(3,4)` at depth `2` with unit focal lengths. -/
theorem backproject_roundtrip_witness :
    (0 : ℚ) < 2 ∧ (0 : ℚ) < 1 ∧
    ((backproject 1 1 0 0 3 4 2).1 * 1 / (backproject 1 1 0 0 3 4 2).2.2 + 0 = ((3 : ℕ) : ℚ) ∧
     (backproject 1 1 0 0 3 4 2).2.1 * 1 / (backproject 1 1 0 0 3 4 2).2.2 + 0 = ((4 : ℕ) : ℚ)) :=
  ⟨by norm_num, by norm_num,
    backproject_roundtrip 3 4 2 1 1 0 0 (by norm_num) (by norm_num) (by norm_num)⟩

/-! C1 -/

/-- C1 counterexample: one door object at 45x105 with confidence 1.0
gives factor 2, and 2 is not the claimed 3.0. -/
theorem aggregator_door_not_three :
    calculate_calibration_from_objects [⟨"door", 45, 105, 90, 1⟩] [] = Except.ok 2 ∧
    (2 : ℚ) ≠ 3 :=
  ⟨by with_unfolding_all rfl, by norm_num⟩

/-- C1 amended: one door object detected at `width=45, height=105` with
confidence 1.0 and no walls gives factor `(90/45 + 210/105)/2`, the
confidence-weighted average of the two ratios with both weights 1.0
(which equals 2.0, not 3.0). -/
theorem aggregator_door_factor :
    calculate_calibration_from_objects [⟨"door", 45, 105, 90, 1⟩] [] =
      Except.ok ((90 / 45 + 210 / 105) / 2) := by
  with_unfolding_all rfl

/-! C2 -/

/-- C2: the source requires at least 8 whitespace tokens on a `WALL` line
(at least 7 numeric fields), so the 6-field line `WALL 0 0 0 1 0 0` is
skipped and produces no wall, while the same line with one extra field
produces one wall of length `sqrt 1`, contradicting the claim's
"at least 6 numeric fields" and its example. -/
theorem wall_line_six_fields_skipped (sqrt : ℚ → ℚ) :
    extract_layout sqrt "WALL 0 0 0 1 0 0" = Except.ok ([], []) ∧
    extract_layout sqrt "WALL 0 0 0 1 0 0 0" = Except.ok ([⟨sqrt 1⟩], []) := by
  constructor <;> with_unfolding_all rfl

/-! C3 -/

/-- C3: parsing `OBJECT door 0 0 0 0.9 0.5 2.1 0 0 0 0.95` yields one
object with width `0.5*100 = 50` and height `2.1*100 = 210` as claimed,
but its confidence is `0.0` — the value of the 10th field (psi, read from
`parts[10]`) — not the 11th-field value `0.95`, and the `0.9` default is
unreachable because the branch requires at least 11 tokens. -/
theorem object_line_confidence_is_psi (sqrt : ℚ → ℚ) :
    extract_layout sqrt "OBJECT door 0 0 0 0.9 0.5 2.1 0 0 0 0.95" =
      Except.ok ([], [⟨"door", 50, 210, 90, 0⟩]) := by
  with_unfolding_all rfl

/-! C4 -/

/-- C4: when the spatial collaborator raises any error, the spatial
strategy does not propagate it: the result has method `"spatial"`, the
fixed fallback factor `0.05`, and confidence within `[0.7, 0.8]`
(`0.7` when the bridge raised, `0.8` when it is unavailable). -/
theorem spatial_fallback_on_error (b : Bool) (e : String) :
    (calculate_spatial_calibration b (Except.error e)).method = "spatial" ∧
    (calculate_spatial_calibration b (Except.error e)).factor = 1 / 20 ∧
    7 / 10 ≤ (calculate_spatial_calibration b (Except.error e)).confidence ∧
    (calculate_spatial_calibration b (Except.error e)).confidence ≤ 8 / 10 := by
  cases b <;>
    exact ⟨rfl, rfl, by norm_num [calculate_spatial_calibration],
      by norm_num [calculate_spatial_calibration]⟩

/-! C5 -/

/-- C5 counterexample: a supplied direct factor of `0.0` is falsy in
Python, so with a person height also supplied the orchestrator selects
the height strategy, not the direct one. -/
theorem zero_factor_not_direct :
    orchestrate (Args.mk none (some 0) (some 175) none none none none none) true (some 500)
        ⟨"spatial", 1/20, 7/10, "cm/pixel"⟩ =
      Except.ok ⟨"height", 7/20, 9/10, "cm/pixel"⟩ ∧
    ("height" : String) ≠ "direct" :=
  ⟨by with_unfolding_all rfl, by decide⟩

/-- C5 amended: when no explicit calibration method is given and a
nonzero direct calibration factor is supplied, the orchestrator returns
method `"direct"` with that factor and confidence `1.0`, regardless of any
other supplied inputs (person height included). -/
theorem direct_precedence (a : Args) (c : ℚ) (il : Bool) (dh : Option ℚ)
    (sp : CalibResult) (hm : a.calibration_method = none)
    (hc : a.calibration_factor = some c) (hc0 : c ≠ 0) :
    orchestrate a il dh sp = Except.ok ⟨"direct", c, 1, "cm/pixel"⟩ := by
  unfold orchestrate determine_calibration_method main_calibration_result
  rw [hm, hc]
  simp [truthyS, truthyQ, hc0]

/-- C5 witness: direct factor `0.5` beats a person height of `175`. -/
theorem direct_precedence_witness :
    (Args.mk none (some (1/2)) (some 175) none none none none none).calibration_method = none ∧
    (Args.mk none (some (1/2)) (some 175) none none none none none).calibration_factor =
      some (1/2) ∧
    ((1 : ℚ)/2 ≠ 0) ∧
    orchestrate (Args.mk none (some (1/2)) (some 175) none none none none none) true (some 500)
        ⟨"spatial", 1/20, 7/10, "cm/pixel"⟩ =
      Except.ok ⟨"direct", 1/2, 1, "cm/pixel"⟩ :=
  ⟨rfl, rfl, by norm_num,
    direct_precedence _ (1/2) true (some 500) _ rfl rfl (by norm_num)⟩

/-! C6 -/

/-- C6 counterexample: with no recognized object and one wall of length
`0`, the wall fallback divides by `avg_wall_length * 100 = 0` and raises
`ZeroDivisionError` instead of returning a factor. -/
theorem wall_fallback_zero_division :
    calculate_calibration_from_objects [] [⟨0⟩] =
      Except.error "ZeroDivisionError" := by
  with_unfolding_all rfl

theorem objectRatios_nil {objects : List DetObj}
    (h : ∀ o ∈ objects, standard_dimensions (pyLower o.type) = none) :
    objectRatios objects = [] := by
  induction objects with
  | nil => rfl
  | cons o t ih =>
    have ho := h o (List.mem_cons_self o t)
    have ht := ih fun x hx => h x (List.mem_cons_of_mem o hx)
    rw [objectRatios] at ht ⊢
    rw [List.flatMap_cons, ho, ht]
    rfl

/-- C6 amended: for every input whose objects are all outside the
standard-dimensions table and whose wall list is non-empty with lengths
not summing to zero, the aggregator collects exactly the single ratio
`standard_wall_height / (mean(length)*100)` with fixed weight `0.7` and
returns that ratio as the factor without error (with a zero mean length
it raises `ZeroDivisionError` instead, see the counterexample). -/
theorem wall_fallback (objects : List DetObj) (walls : List Wall)
    (hobj : ∀ o ∈ objects, standard_dimensions (pyLower o.type) = none)
    (hne : walls ≠ []) (hsum : (walls.map Wall.length).sum ≠ 0) :
    ratiosOf objects walls =
      Except.ok [(standard_wall_height /
        ((walls.map Wall.length).sum / (walls.length : ℚ) * 100), 7/10)] ∧
    calculate_calibration_from_objects objects walls =
      Except.ok (standard_wall_height /
        ((walls.map Wall.length).sum / (walls.length : ℚ) * 100)) := by
  have h0 := objectRatios_nil hobj
  have hlen0 : walls.length ≠ 0 := fun hh => hne (List.length_eq_zero.mp hh)
  have hlen : (walls.length : ℚ) ≠ 0 := Nat.cast_ne_zero.mpr hlen0
  have havg : (walls.map Wall.length).sum / (walls.length : ℚ) * 100 ≠ 0 :=
    mul_ne_zero (div_ne_zero hsum hlen) (by norm_num)
  have hr : ratiosOf objects walls =
      Except.ok [(standard_wall_height /
        ((walls.map Wall.length).sum / (walls.length : ℚ) * 100), 7/10)] := by
    rw [ratiosOf, h0]
    rw [if_pos ⟨rfl, hne⟩, if_neg havg]
    rfl
  refine ⟨hr, ?_⟩
  rw [calculate_calibration_from_objects, hr]
  show Except.ok _ = _
  have h710 : ((7 : ℚ)/10) ≠ 0 := by norm_num
  simp [mul_div_assoc, mul_div_cancel_right₀, h710]

/-- C6 witness: one wall of length `2.5` gives factor `250/250 = 1`. -/
theorem wall_fallback_witness :
    (([⟨5/2⟩] : List Wall) ≠ []) ∧
    ((([⟨5/2⟩] : List Wall).map Wall.length).sum ≠ 0) ∧
    calculate_calibration_from_objects [] [⟨5/2⟩] = Except.ok 1 := by
  refine ⟨by simp, by with_unfolding_all decide, ?_⟩
  have h := (wall_fallback [] [⟨5/2⟩] (by simp) (by simp)
    (by with_unfolding_all decide)).2
  rw [h]
  with_unfolding_all rfl

/-! C7 -/

/-- C7 counterexample: the parser does fail on malformed input — a
`WALL` line with enough tokens but a non-numeric field raises an uncaught
`ValueError` — and it does not fail on empty input (there is no
`EmptyLayout` error; the empty text parses to no walls and no objects). -/
theorem layout_parser_counterexample :
    extract_layout (fun q => q) "WALL a 0 0 0 0 0 0" =
      Except.error "ValueError: could not convert string to float: a" ∧
    extract_layout (fun q => q) "" = Except.ok ([], []) := by
  constructor <;> with_unfolding_all rfl

theorem parseLine_skipped (sqrt : ℚ → ℚ) (l : String)
    (h : skippableLine l = true) : parseLine sqrt l = Except.ok none := by
  rw [skippableLine] at h
  rw [parseLine]
  by_cases h1 : pyStartsWith l "WALL"
  · rw [if_pos h1] at h ⊢
    rw [if_neg (by simpa using Nat.not_le.mpr (by simpa using h))]
    rfl
  · rw [if_neg h1] at h ⊢
    by_cases h2 : pyStartsWith l "OBJECT"
    · rw [if_pos h2] at h ⊢
      rw [if_neg (by simpa using Nat.not_le.mpr (by simpa using h))]
      rfl
    · rw [if_neg h2]
      rfl

theorem parseLinesGo_skipped (sqrt : ℚ → ℚ) :
    ∀ (ls : List String) (walls : List Wall) (objects : List DetObj),
      (∀ l ∈ ls, skippableLine l = true) →
      parseLinesGo sqrt ls walls objects = Except.ok (walls, objects) := by
  intro ls
  induction ls with
  | nil => intro walls objects _; rfl
  | cons l rest ih =>
    intro walls objects h
    rw [parseLinesGo, parseLine_skipped sqrt l (h l (by simp))]
    exact ih walls objects fun x hx => h x (by simp [hx])

/-- C7 amended: every line that does not match the `WALL`/`OBJECT`
prefixes, or matches one but has fewer tokens than its guard requires, is
skipped, and an input consisting only of such lines — the empty input
included — parses without error to no walls and no objects; the parser
never raises an `EmptyLayout` error (no such error exists), but it is not
total: a matching line with enough fields and a non-numeric token raises
`ValueError` (see the counterexample). -/
theorem layout_parser_amended :
    (∀ (sqrt : ℚ → ℚ) (text : String),
      (∀ l ∈ splitNl (pyStrip text), skippableLine l = true) →
      extract_layout sqrt text = Except.ok ([], [])) ∧
    (∀ sqrt : ℚ → ℚ, extract_layout sqrt "" = Except.ok ([], [])) := by
  constructor
  · intro sqrt text h
    rw [extract_layout]
    exact parseLinesGo_skipped sqrt _ [] [] h
  · intro sqrt
    rw [extract_layout]
    exact parseLinesGo_skipped sqrt _ [] [] (by with_unfolding_all decide)

/-- C7 witness: a text of a comment line and a short `WALL` line is
entirely skipped. -/
theorem layout_parser_amended_witness :
    (∀ l ∈ splitNl (pyStrip "hello world\nWALL 1 2"), skippableLine l = true) ∧
    extract_layout (fun q => q) "hello world\nWALL 1 2" = Except.ok ([], []) :=
  ⟨by with_unfolding_all decide,
    layout_parser_amended.1 (fun q => q) "hello world\nWALL 1 2"
      (by with_unfolding_all decide)⟩

/-! C10 -/

/-- C10: the weighted-average division is guarded — whenever the ratio
list is non-empty but its total weight is zero, the aggregator returns
the default factor `0.1` instead of dividing by the zero weight. -/
theorem zero_weight_default (objects : List DetObj) (walls : List Wall)
    (rs : List (ℚ × ℚ)) (hr : ratiosOf objects walls = Except.ok rs)
    (hne : rs ≠ []) (hw : (rs.map fun rc => rc.2).sum = 0) :
    calculate_calibration_from_objects objects walls = Except.ok (1/10) := by
  have hbind : calculate_calibration_from_objects objects walls =
      (if rs ≠ [] then
        pure (if (rs.map fun rc => rc.2).sum > 0 then
          (rs.map fun rc => rc.1 * rc.2).sum / (rs.map fun rc => rc.2).sum
          else 1/10)
      else pure (1/10)) := by
    rw [calculate_calibration_from_objects, hr]
    rfl
  rw [hbind, if_pos hne, hw, if_neg (lt_irrefl 0)]
  rfl

/-- C10 witness: a door object with confidence `0` yields two ratios of
total weight `0` and the default factor `0.1`. -/
theorem zero_weight_default_witness :
    ratiosOf [⟨"door", 45, 105, 90, 0⟩] [] = Except.ok [(2, 0), (2, 0)] ∧
    (([(2, 0), (2, 0)] : List (ℚ × ℚ)) ≠ []) ∧
    ((([(2, 0), (2, 0)] : List (ℚ × ℚ)).map fun rc => rc.2).sum = 0) ∧
    calculate_calibration_from_objects [⟨"door", 45, 105, 90, 0⟩] [] =
      Except.ok (1/10) :=
  ⟨by with_unfolding_all rfl, by simp, by with_unfolding_all rfl,
    zero_weight_default _ _ [(2, 0), (2, 0)] (by with_unfolding_all rfl)
      (by simp) (by with_unfolding_all rfl)⟩

end Calibration
